import Mathlib

/-
Shallow embedding of src/busTicketing_allscenarious.py, a FastAPI bus ticket
booking workflow backed by process-local mutable dictionaries
(ROUTES, SESSIONS, ALLOWED_CUSTOMERS) and a phone-number allow-list.
Each request handler becomes a pure function from the request model and the
global state to a structured result together with the successor state.
Pydantic request validation (constr / conint / Field bounds) is embedded as a
boolean shape gate that runs before the handler body, mirroring FastAPI's
order of evaluation.
-/

namespace BusTicketing

/-- Passenger record, the dictionary stored into a session by enter_passenger
via details.dict(). -/
structure Passenger where
  phone_number : String
  name : String
  age : Int
  gender : String
  email : String
deriving DecidableEq, Repr

/-- Customer record, the value type of the ALLOWED_CUSTOMERS dictionary. -/
structure Customer where
  name : String
  email : String
deriving DecidableEq, Repr

/-- Session dictionary entry of SESSIONS. A key that is absent from the Python
dictionary is modelled as none; in particular the attempts key is absent in
the session written by register_customer. The cancelled flag is read and
written only by the spec-modelled cancel operation further below; none of the
handlers embedded from the source touch it, matching the absence of any
cancel endpoint in the source. -/
structure Session where
  attempts : Option Nat
  validated : Bool
  seat : Option Int
  bus_id : Option String
  passenger : Option Passenger
  cancelled : Bool
deriving DecidableEq, Repr

/-- One bus entry of the ROUTES table: bus_id, start_time and the mutable
available_seats list. Seat numbers are Python ints, hence Int. -/
structure Bus where
  bus_id : String
  start_time : String
  available_seats : List Int
deriving DecidableEq, Repr

/-- Request body of POST /search-buses/. -/
structure RouteSearch where
  phone_number : String
  source : String
  destination : String
deriving DecidableEq, Repr

/-- Request body of POST /select-seat/. -/
structure SeatSelection where
  phone_number : String
  bus_id : String
  seat_number : Int
deriving DecidableEq, Repr

/-- Request body of POST /enter-passenger/. -/
structure PassengerDetails where
  phone_number : String
  name : String
  age : Int
  gender : String
  email : String
deriving DecidableEq, Repr

/-- Request body of POST /make-payment/. The float amount is embedded as a
rational; the handler only compares it with zero and echoes it back. -/
structure Payment where
  phone_number : String
  card_number : String
  expiry_date : String
  cvv : String
  amount : Rat
deriving DecidableEq, Repr

/-- Request body of POST /register-customer/. -/
structure CustomerRegistration where
  phone_number : String
  name : String
  email : String
deriving DecidableEq, Repr

/-- Global mutable state of the process: the ROUTES, SESSIONS and
ALLOWED_CUSTOMERS dictionaries. ALLOWED_PHONE_NUMBERS is immutable and kept
as a plain constant. -/
structure St where
  routes : List (String × List Bus)
  sessions : List (String × Session)
  customers : List (String × Customer)
deriving DecidableEq, Repr

/-- Lookup in a string-keyed association list, modelling Python dict access. -/
def lookupA {α : Type} : List (String × α) → String → Option α
  | [], _ => none
  | (k, v) :: rest, key => if key = k then some v else lookupA rest key

/-- Update or insert in a string-keyed association list, modelling Python
dict assignment (insertion order: a new key is appended). -/
def updateA {α : Type} : List (String × α) → String → α → List (String × α)
  | [], key, v => [(key, v)]
  | (k, w) :: rest, key, v =>
      if key = k then (k, v) :: rest else (k, w) :: updateA rest key v

/-- The ALLOWED_PHONE_NUMBERS set. -/
def ALLOWED_PHONE_NUMBERS : List String := ["7358174456", "7358174457"]

/-- Initial contents of the ALLOWED_CUSTOMERS dictionary. -/
def initCustomers : List (String × Customer) :=
  [("7358174456", ⟨"John Doe", "john@example.com"⟩),
   ("7358174457", ⟨"Jane Smith", "jane@example.com"⟩)]

/-- The ROUTES table: route key to list of buses, with available_seats
initialised to list(range(1, N + 1)). -/
def ROUTES : List (String × List Bus) :=
  [("Bangalore-Chennai",
     [⟨"CB1001", "09:00 AM", [1, 2, 3, 4, 5, 6, 7, 8, 9, 10]⟩,
      ⟨"CB1002", "02:00 PM", [1, 2, 3, 4, 5]⟩]),
   ("Chennai-Hyderabad",
     [⟨"CH2001", "08:30 AM", [1, 2, 3, 4, 5, 6, 7]⟩,
      ⟨"CH2002", "09:30 AM", [1, 2, 3, 4, 5, 6, 7]⟩])]

/-- State at process start: ROUTES and ALLOWED_CUSTOMERS populated, SESSIONS
empty. -/
def initState : St := ⟨ROUTES, [], initCustomers⟩

/-- Seat capacity of each bus, fixed at catalog definition time as the length
of its initial seat range. -/
def capacity (bid : String) : Nat :=
  if bid = "CB1001" then 10
  else if bid = "CB1002" then 5
  else if bid = "CH2001" then 7
  else if bid = "CH2002" then 7
  else 0

/-- Whitespace stripping of pydantic's strip_whitespace, embedded over the
character list of the string so that it evaluates by kernel reduction. -/
def pyStrip (s : String) : String :=
  ⟨((s.data.dropWhile Char.isWhitespace).reverse.dropWhile Char.isWhitespace).reverse⟩

/-- Pydantic gate of constr(strip_whitespace=True, min_length=10,
max_length=10): the whitespace-stripped value must have exactly 10
characters. Only the length is checked; digit content is not. -/
def phoneShapeOK (s : String) : Bool := (pyStrip s).length == 10

/-- Pydantic gate of the RouteSearch model. -/
def routeShapeOK (r : RouteSearch) : Bool := phoneShapeOK r.phone_number

/-- Pydantic gate of the SeatSelection model: conint(gt=0) on seat_number. -/
def seatShapeOK (s : SeatSelection) : Bool :=
  phoneShapeOK s.phone_number && decide (0 < s.seat_number)

/-- Pydantic gate of the PassengerDetails model: conint(gt=0) on age. -/
def passengerShapeOK (d : PassengerDetails) : Bool :=
  phoneShapeOK d.phone_number && decide (0 < d.age)

/-- Pydantic gate of the Payment model: card_number exactly 16 characters,
cvv exactly 3 characters, amount > 0. Lengths only; digits are not checked. -/
def paymentShapeOK (p : Payment) : Bool :=
  phoneShapeOK p.phone_number && (p.card_number.length == 16)
    && (p.cvv.length == 3) && decide (0 < p.amount)

/-- Pydantic gate of the CustomerRegistration model. -/
def regShapeOK (c : CustomerRegistration) : Bool := phoneShapeOK c.phone_number

/-- Result of POST /validate-phone/. keyErr models the KeyError raised when
the attempts key is absent from a pre-existing session. -/
inductive VResult where
  | validationError
  | valid (customer : Option Customer)
  | invalidTryAgain
  | invalidFailed
  | keyErr
deriving DecidableEq, Repr

/-- Session value inserted by SESSIONS.setdefault in validate_phone_number. -/
def freshSession : Session := ⟨some 0, false, none, none, none, false⟩

/-- Handler of POST /validate-phone/. -/
def validate_phone_number (st : St) (raw : String) : VResult × St :=
  if phoneShapeOK raw = false then (.validationError, st)
  else
    let ph := pyStrip raw
    let sess := (lookupA st.sessions ph).getD freshSession
    if ph ∈ ALLOWED_PHONE_NUMBERS then
      let sess' := { sess with validated := true, attempts := some 0 }
      (.valid (lookupA st.customers ph),
       { st with sessions := updateA st.sessions ph sess' })
    else
      match sess.attempts with
      | none => (.keyErr, { st with sessions := updateA st.sessions ph sess })
      | some a =>
          let sess' := { sess with attempts := some (a + 1) }
          ((if a + 1 ≥ 2 then VResult.invalidFailed else VResult.invalidTryAgain),
           { st with sessions := updateA st.sessions ph sess' })

/-- Result of POST /register-customer/. -/
inductive RegResult where
  | validationError
  | alreadyExists
  | registered (customer : Customer)
deriving DecidableEq, Repr

/-- Handler of POST /register-customer/: unknown phones are added to
ALLOWED_CUSTOMERS and their session is replaced by a dictionary holding only
validated = True. -/
def register_customer (st : St) (c : CustomerRegistration) : RegResult × St :=
  if regShapeOK c = false then (.validationError, st)
  else
    let ph := pyStrip c.phone_number
    match lookupA st.customers ph with
    | some _ => (.alreadyExists, st)
    | none =>
        (.registered ⟨c.name, c.email⟩,
         { st with
            customers := updateA st.customers ph ⟨c.name, c.email⟩,
            sessions := updateA st.sessions ph ⟨none, true, none, none, none, false⟩ })

/-- Result of POST /search-buses/. -/
inductive SearchResult where
  | validationError
  | unauthenticated
  | noBuses
  | buses (bs : List Bus)
deriving DecidableEq, Repr

/-- Handler of POST /search-buses/. -/
def search_buses (st : St) (r : RouteSearch) : SearchResult × St :=
  if routeShapeOK r = false then (.validationError, st)
  else
    match lookupA st.sessions (pyStrip r.phone_number) with
    | none => (.unauthenticated, st)
    | some sess =>
        if sess.validated = false then (.unauthenticated, st)
        else
          match lookupA st.routes (r.source ++ "-" ++ r.destination) with
          | none => (.noBuses, st)
          | some bs => (.buses bs, st)

/-- Result of POST /select-seat/. -/
inductive SelectResult where
  | validationError
  | unauthenticated
  | success (bus_id : String) (seat : Int)
  | seatNotAvailable
  | busNotFound
deriving DecidableEq, Repr

/-- Inner loop of select_seat over one route's bus list: the first bus whose
bus_id matches decides the outcome. Returns none when no bus matches; the
boolean is true when the seat was found available and removed. -/
def hold_in_buses (bid : String) (k : Int) : List Bus → Option (List Bus × Bool)
  | [] => none
  | b :: rest =>
      if b.bus_id = bid then
        if k ∈ b.available_seats then
          some ({ b with available_seats := b.available_seats.erase k } :: rest, true)
        else
          some (b :: rest, false)
      else
        match hold_in_buses bid k rest with
        | none => none
        | some (rest', ok) => some (b :: rest', ok)

/-- Outer loop of select_seat over ROUTES.values(). -/
def hold_in_routes (bid : String) (k : Int) :
    List (String × List Bus) → Option (List (String × List Bus) × Bool)
  | [] => none
  | (key, bs) :: rest =>
      match hold_in_buses bid k bs with
      | some (bs', ok) => some ((key, bs') :: rest, ok)
      | none =>
          match hold_in_routes bid k rest with
          | none => none
          | some (rest', ok) => some ((key, bs) :: rest', ok)

/-- Handler of POST /select-seat/: on success the seat is removed from the
bus's available_seats and recorded in the session together with the bus id;
a found bus whose list does not contain the seat yields the Seat-not-available
message and leaves all state unchanged. -/
def select_seat (st : St) (sel : SeatSelection) : SelectResult × St :=
  if seatShapeOK sel = false then (.validationError, st)
  else
    let ph := pyStrip sel.phone_number
    match lookupA st.sessions ph with
    | none => (.unauthenticated, st)
    | some sess =>
        if sess.validated = false then (.unauthenticated, st)
        else
          match hold_in_routes sel.bus_id sel.seat_number st.routes with
          | none => (.busNotFound, st)
          | some (routes', true) =>
              let sess' := { sess with seat := some sel.seat_number, bus_id := some sel.bus_id }
              (.success sel.bus_id sel.seat_number,
               { st with routes := routes', sessions := updateA st.sessions ph sess' })
          | some (_, false) => (.seatNotAvailable, st)

/-- Result of POST /enter-passenger/. -/
inductive PassResult where
  | validationError
  | unauthenticated
  | recorded (p : Passenger)
deriving DecidableEq, Repr

/-- Handler of POST /enter-passenger/: stores details.dict() in the session. -/
def enter_passenger (st : St) (d : PassengerDetails) : PassResult × St :=
  if passengerShapeOK d = false then (.validationError, st)
  else
    let ph := pyStrip d.phone_number
    match lookupA st.sessions ph with
    | none => (.unauthenticated, st)
    | some sess =>
        if sess.validated = false then (.unauthenticated, st)
        else
          let pass : Passenger := ⟨ph, d.name, d.age, d.gender, d.email⟩
          let sess' := { sess with passenger := some pass }
          (.recorded pass,
           { st with sessions := updateA st.sessions ph sess' })

/-- Result of POST /make-payment/. The ok constructor carries the response
fields: amount_paid, confirmation_number, ticket_status, and the session's
passenger, bus_id and seat values (None when never set). -/
inductive PayResult where
  | validationError
  | unauthenticated
  | ok (amount : Rat) (confirmation : Nat) (ticket : String)
      (passenger : Option Passenger) (bus_id : Option String) (seat : Option Int)
deriving DecidableEq, Repr

/-- Handler of POST /make-payment/. The value of random.randint(100000,
999999) is passed in as the parameter conf. The handler checks only that the
session exists and is validated; it performs no lifecycle check and mutates
no state. -/
def make_payment (st : St) (p : Payment) (conf : Nat) : PayResult × St :=
  if paymentShapeOK p = false then (.validationError, st)
  else
    match lookupA st.sessions (pyStrip p.phone_number) with
    | none => (.unauthenticated, st)
    | some sess =>
        if sess.validated = false then (.unauthenticated, st)
        else
          (.ok p.amount conf "CONFIRMED" sess.passenger sess.bus_id sess.seat, st)

/-- One request to the service, with the random confirmation draw of
make_payment made explicit. This enumerates every state-touching endpoint of
the source. -/
inductive Op where
  | vphone (raw : String)
  | regc (c : CustomerRegistration)
  | search (r : RouteSearch)
  | select (s : SeatSelection)
  | enterp (d : PassengerDetails)
  | payop (p : Payment) (conf : Nat)
deriving DecidableEq, Repr

/-- State effect of one request. -/
def step (st : St) : Op → St
  | .vphone raw => (validate_phone_number st raw).2
  | .regc c => (register_customer st c).2
  | .search r => (search_buses st r).2
  | .select s => (select_seat st s).2
  | .enterp d => (enter_passenger st d).2
  | .payop p conf => (make_payment st p conf).2

/-- State after a sequence of requests. -/
def run (st : St) (ops : List Op) : St := ops.foldl step st

/-- All buses of a routes table, in iteration order. -/
def busesIn : List (String × List Bus) → List Bus
  | [] => []
  | (_, bs) :: rest => bs ++ busesIn rest

/-- All buses of a state. -/
def busesOf (st : St) : List Bus := busesIn st.routes

/-- The seat numbers 1, ..., n as integers. -/
def seatList (n : Nat) : List Int := (List.range n).map (fun i : Nat => (i : Int) + 1)

/-- Held seats of a bus: the seats of the full range that are no longer in
its available_seats list. -/
def heldSeats (b : Bus) : List Int :=
  (seatList (capacity b.bus_id)).filter (fun s => decide (s ∉ b.available_seats))

/-- Seat k no longer appears on any bus with the given id. -/
def SeatGone (st : St) (bid : String) (k : Int) : Prop :=
  ∀ b ∈ busesOf st, b.bus_id = bid → k ∉ b.available_seats

/-- Seat k no longer appears on any bus at all. -/
def SeatGoneAll (st : St) (k : Int) : Prop :=
  ∀ b ∈ busesOf st, k ∉ b.available_seats

/-- A bus with this id exists in the state. -/
def BusExists (st : St) (bid : String) : Prop :=
  bid ∈ (busesOf st).map Bus.bus_id

/-- Structural invariant of the seat ledger: bus ids are pairwise distinct,
every available_seats list is duplicate-free, and every listed seat lies in
the range 1..capacity of its bus. -/
def Inv (st : St) : Prop :=
  ((busesOf st).map Bus.bus_id).Nodup ∧
    ∀ b ∈ busesOf st, b.available_seats.Nodup ∧
      ∀ s ∈ b.available_seats, 1 ≤ s ∧ s ≤ (capacity b.bus_id : Int)

/-- One-step evolution of the seat ledger: bus ids are unchanged and each
available_seats list is unchanged or has one seat erased. Every request
handler's state effect satisfies this relation. -/
def StEvol (st st' : St) : Prop :=
  (busesOf st').map Bus.bus_id = (busesOf st).map Bus.bus_id ∧
    ∀ b' ∈ busesOf st', ∃ b ∈ busesOf st, b'.bus_id = b.bus_id ∧
      (b'.available_seats = b.available_seats ∨
        ∃ k : Int, b'.available_seats = b.available_seats.erase k)

/-- The session of this phone exists and is validated. -/
def validatedIn (st : St) (ph : String) : Bool :=
  match lookupA st.sessions ph with
  | some sess => sess.validated
  | none => false

/-- Result of the spec-modelled cancel operation. -/
inductive CancelResult where
  | notFound
  | alreadyCancelled
  | cancelledOK
deriving DecidableEq, Repr

/-- Modelled from the spec: release of one seat number into an
available-seat list, per section 4.2 — release_seat is idempotent and
releasing an unheld seat is a no-op. The source has no release code. -/
def releaseSeatList (k : Int) (l : List Int) : List Int :=
  if k ∈ l then l else k :: l

/-- Modelled from the spec: release applied to the first bus whose id
matches, mirroring the lookup order of hold_in_buses. -/
def release_in_buses (bid : String) (k : Int) : List Bus → Option (List Bus)
  | [] => none
  | b :: rest =>
      if b.bus_id = bid then
        some ({ b with available_seats := releaseSeatList k b.available_seats } :: rest)
      else
        match release_in_buses bid k rest with
        | none => none
        | some rest' => some (b :: rest')

/-- Modelled from the spec: release over the routes table. -/
def release_in_routes (bid : String) (k : Int) :
    List (String × List Bus) → Option (List (String × List Bus))
  | [] => none
  | (key, bs) :: rest =>
      match release_in_buses bid k bs with
      | some bs' => some ((key, bs') :: rest)
      | none =>
          match release_in_routes bid k rest with
          | none => none
          | some rest' => some ((key, bs) :: rest')

/-- Modelled from the spec: release_seat of section 4.2 applied to a state;
an unknown bus id is a no-op. The source has no release code. -/
def release_seat (st : St) (bid : String) (k : Int) : St :=
  match release_in_routes bid k st.routes with
  | none => st
  | some rs' => { st with routes := rs' }

/-- Modelled from the spec: the source repository has no cancel endpoint, so
this follows sections 4.3 and 8 of the spec — cancel releases the held seat
(if any) via release_seat, marks the booking CANCELLED, and rejects a
booking that is already CANCELLED (the InvalidState choice of the section 8
scenario). Bookings are identified by the session phone number, as in the
source. -/
def cancel (st : St) (ph : String) : CancelResult × St :=
  match lookupA st.sessions ph with
  | none => (.notFound, st)
  | some sess =>
      if sess.cancelled then (.alreadyCancelled, st)
      else
        let st₁ :=
          match sess.bus_id, sess.seat with
          | some bid, some k => release_seat st bid k
          | _, _ => st
        let sess' := { sess with cancelled := true }
        (.cancelledOK, { st₁ with sessions := updateA st₁.sessions ph sess' })

/-! Association-list and seat-range lemmas. -/

theorem lookupA_updateA_self {α : Type} (l : List (String × α)) (key : String) (v : α) :
    lookupA (updateA l key v) key = some v := by
  induction l with
  | nil => simp [updateA, lookupA]
  | cons hd tl ih =>
      obtain ⟨k, w⟩ := hd
      by_cases h : key = k
      · simp [updateA, lookupA, h]
      · simp [updateA, lookupA, h, ih]

theorem mem_seatList (n : Nat) (s : Int) : s ∈ seatList n ↔ 1 ≤ s ∧ s ≤ (n : Int) := by
  simp only [seatList]
  constructor
  · intro h
    obtain ⟨i, hi, hEq⟩ := List.mem_map.mp h
    rw [List.mem_range] at hi
    omega
  · intro hs
    apply List.mem_map.mpr
    refine ⟨(s - 1).toNat, ?_, ?_⟩
    · rw [List.mem_range]
      omega
    · omega

/-! Behaviour of the inner seat-hold loop over one bus list. -/

theorem hold_in_buses_isSome (bid : String) (k : Int) (bs : List Bus) (b₀ : Bus)
    (hmem : b₀ ∈ bs) (hid : b₀.bus_id = bid) : hold_in_buses bid k bs ≠ none := by
  induction bs with
  | nil => simp at hmem
  | cons b rest ih =>
      simp only [hold_in_buses]
      by_cases hb : b.bus_id = bid
      · by_cases hk : k ∈ b.available_seats <;> simp [hb, hk]
      · have hmem' : b₀ ∈ rest := by
          rcases List.mem_cons.mp hmem with rfl | h
          · exact absurd hid hb
          · exact h
        rcases h' : hold_in_buses bid k rest with _ | ⟨rest', ok⟩
        · exact absurd h' (ih hmem')
        · simp [hb, h']

theorem hold_in_buses_no_match (bid : String) (k : Int) (bs : List Bus)
    (h : hold_in_buses bid k bs = none) : ∀ b ∈ bs, b.bus_id ≠ bid :=
  fun b₀ hmem hid => hold_in_buses_isSome bid k bs b₀ hmem hid h

theorem hold_in_buses_match (bid : String) (k : Int) (bs : List Bus)
    (x : List Bus × Bool) (h : hold_in_buses bid k bs = some x) :
    ∃ b ∈ bs, b.bus_id = bid := by
  induction bs generalizing x with
  | nil => simp [hold_in_buses] at h
  | cons b rest ih =>
      simp only [hold_in_buses] at h
      by_cases hb : b.bus_id = bid
      · exact ⟨b, by simp, hb⟩
      · rcases h' : hold_in_buses bid k rest with _ | y
        · simp [hb, h'] at h
        · obtain ⟨b₁, hmem, hid⟩ := ih y h'
          exact ⟨b₁, by simp [hmem], hid⟩

theorem hold_in_buses_false (bid : String) (k : Int) :
    ∀ bs bs' : List Bus, hold_in_buses bid k bs = some (bs', false) → bs' = bs := by
  intro bs
  induction bs with
  | nil => intro bs' h; simp [hold_in_buses] at h
  | cons b rest ih =>
      intro bs' h
      simp only [hold_in_buses] at h
      by_cases hb : b.bus_id = bid
      · rw [if_pos hb] at h
        by_cases hk : k ∈ b.available_seats
        · rw [if_pos hk] at h
          simp at h
        · rw [if_neg hk] at h
          simp only [Option.some.injEq, Prod.mk.injEq] at h
          exact h.1.symm
      · rw [if_neg hb] at h
        rcases h' : hold_in_buses bid k rest with _ | ⟨rest', ok₁⟩
        · rw [h'] at h
          simp at h
        · rw [h'] at h
          simp only [Option.some.injEq, Prod.mk.injEq] at h
          obtain ⟨h₁, h₂⟩ := h
          subst h₂
          rw [← h₁, ih rest' h']

theorem hold_in_buses_evol (bid : String) (k : Int) :
    ∀ bs bs' : List Bus, ∀ ok : Bool, hold_in_buses bid k bs = some (bs', ok) →
      bs'.map Bus.bus_id = bs.map Bus.bus_id ∧
        ∀ b' ∈ bs', ∃ b ∈ bs, b'.bus_id = b.bus_id ∧
          (b'.available_seats = b.available_seats ∨
            b'.available_seats = b.available_seats.erase k) := by
  intro bs
  induction bs with
  | nil => intro bs' ok h; simp [hold_in_buses] at h
  | cons b rest ih =>
      intro bs' ok h
      simp only [hold_in_buses] at h
      by_cases hb : b.bus_id = bid
      · rw [if_pos hb] at h
        by_cases hk : k ∈ b.available_seats
        · rw [if_pos hk] at h
          simp only [Option.some.injEq, Prod.mk.injEq] at h
          obtain ⟨h₁, h₂⟩ := h
          subst h₁
          refine ⟨by simp, ?_⟩
          intro b' hb'
          rcases List.mem_cons.mp hb' with rfl | htl
          · exact ⟨b, by simp, rfl, Or.inr rfl⟩
          · exact ⟨b', by simp [htl], rfl, Or.inl rfl⟩
        · rw [if_neg hk] at h
          simp only [Option.some.injEq, Prod.mk.injEq] at h
          obtain ⟨h₁, h₂⟩ := h
          subst h₁
          refine ⟨rfl, ?_⟩
          intro b' hb'
          exact ⟨b', hb', rfl, Or.inl rfl⟩
      · rw [if_neg hb] at h
        rcases h' : hold_in_buses bid k rest with _ | ⟨rest', ok₁⟩
        · rw [h'] at h
          simp at h
        · rw [h'] at h
          simp only [Option.some.injEq, Prod.mk.injEq] at h
          obtain ⟨h₁, h₂⟩ := h
          obtain ⟨ihm, ihe⟩ := ih rest' ok₁ h'
          subst h₁
          refine ⟨by simp [ihm], ?_⟩
          intro b' hb'
          rcases List.mem_cons.mp hb' with rfl | htl
          · exact ⟨b', by simp, rfl, Or.inl rfl⟩
          · obtain ⟨b₁, hm, hi, he⟩ := ihe b' htl
            exact ⟨b₁, by simp [hm], hi, he⟩

theorem hold_in_buses_gone (bid : String) (k : Int) :
    ∀ bs bs' : List Bus, (bs.map Bus.bus_id).Nodup →
      (∀ b ∈ bs, b.available_seats.Nodup) →
      hold_in_buses bid k bs = some (bs', true) →
      ∀ b' ∈ bs', b'.bus_id = bid → k ∉ b'.available_seats := by
  intro bs
  induction bs with
  | nil => intro bs' _ _ h; simp [hold_in_buses] at h
  | cons b rest ih =>
      intro bs' hids hnd h
      simp only [hold_in_buses] at h
      by_cases hb : b.bus_id = bid
      · rw [if_pos hb] at h
        by_cases hk : k ∈ b.available_seats
        · rw [if_pos hk] at h
          simp only [Option.some.injEq, Prod.mk.injEq] at h
          obtain ⟨h₁, h₂⟩ := h
          subst h₁
          intro b' hb' hid'
          rcases List.mem_cons.mp hb' with rfl | htl
          · exact (hnd b (by simp)).not_mem_erase
          · exfalso
            have hmem : b'.bus_id ∈ rest.map Bus.bus_id := List.mem_map_of_mem Bus.bus_id htl
            rw [hid', ← hb] at hmem
            rw [List.map_cons, List.nodup_cons] at hids
            exact hids.1 hmem
        · rw [if_neg hk] at h
          simp at h
      · rw [if_neg hb] at h
        rcases h' : hold_in_buses bid k rest with _ | ⟨rest', ok₁⟩
        · rw [h'] at h
          simp at h
        · rw [h'] at h
          simp only [Option.some.injEq, Prod.mk.injEq] at h
          obtain ⟨h₁, h₂⟩ := h
          subst h₂
          intro b' hb' hid'
          rw [← h₁] at hb'
          rcases List.mem_cons.mp hb' with rfl | htl
          · exact absurd hid' hb
          · rw [List.map_cons, List.nodup_cons] at hids
            exact ih rest' hids.2 (fun x hx => hnd x (by simp [hx])) h' b' htl hid'

theorem hold_in_buses_eq_none (bid : String) (k : Int) :
    ∀ bs : List Bus, (∀ b ∈ bs, b.bus_id ≠ bid) → hold_in_buses bid k bs = none := by
  intro bs
  induction bs with
  | nil => intro _; simp [hold_in_buses]
  | cons b rest ih =>
      intro h
      have hb : ¬(b.bus_id = bid) := h b (by simp)
      have h' : hold_in_buses bid k rest = none := ih (fun x hx => h x (by simp [hx]))
      simp [hold_in_buses, hb, h']

theorem hold_in_buses_not_avail (bid : String) (k : Int) (bs : List Bus)
    (hex : ∃ b ∈ bs, b.bus_id = bid)
    (hgone : ∀ b ∈ bs, b.bus_id = bid → k ∉ b.available_seats) :
    hold_in_buses bid k bs = some (bs, false) := by
  induction bs with
  | nil => simp at hex
  | cons b rest ih =>
      simp only [hold_in_buses]
      by_cases hb : b.bus_id = bid
      · have hk : k ∉ b.available_seats := hgone b (by simp) hb
        simp [hb, hk]
      · obtain ⟨b₀, hmem, hid⟩ := hex
        have hmem' : b₀ ∈ rest := by
          rcases List.mem_cons.mp hmem with rfl | h
          · exact absurd hid hb
          · exact h
        have h' := ih ⟨b₀, hmem', hid⟩ (fun x hx hi => hgone x (by simp [hx]) hi)
        simp [hb, h']

/-! Behaviour of the outer seat-hold loop over the routes table. -/

theorem hold_in_routes_match (bid : String) (k : Int) :
    ∀ rs : List (String × List Bus), ∀ x, hold_in_routes bid k rs = some x →
      ∃ b ∈ busesIn rs, b.bus_id = bid := by
  intro rs
  induction rs with
  | nil => intro x h; simp [hold_in_routes] at h
  | cons p rest ih =>
      obtain ⟨key, bs⟩ := p
      intro x h
      simp only [hold_in_routes] at h
      rcases hbs : hold_in_buses bid k bs with _ | ⟨bs', ok₁⟩
      · rw [hbs] at h
        rcases h' : hold_in_routes bid k rest with _ | y
        · rw [h'] at h
          simp at h
        · obtain ⟨b₁, hm, hi⟩ := ih y h'
          exact ⟨b₁, by simp [busesIn, hm], hi⟩
      · obtain ⟨b₁, hm, hi⟩ := hold_in_buses_match bid k bs (bs', ok₁) hbs
        exact ⟨b₁, by simp [busesIn, hm], hi⟩

theorem hold_in_routes_isSome (bid : String) (k : Int) :
    ∀ rs : List (String × List Bus), ∀ b₀ ∈ busesIn rs, b₀.bus_id = bid →
      hold_in_routes bid k rs ≠ none := by
  intro rs
  induction rs with
  | nil => intro b₀ hmem; simp [busesIn] at hmem
  | cons p rest ih =>
      obtain ⟨key, bs⟩ := p
      intro b₀ hmem hid
      simp only [busesIn, List.mem_append] at hmem
      simp only [hold_in_routes]
      rcases hbs : hold_in_buses bid k bs with _ | ⟨bs', ok₁⟩
      · rcases hmem with hmem | hmem
        · exact absurd hid (hold_in_buses_no_match bid k bs hbs b₀ hmem)
        · rcases h' : hold_in_routes bid k rest with _ | y
          · exact absurd h' (ih b₀ hmem hid)
          · simp [h']
      · simp

theorem hold_in_routes_false (bid : String) (k : Int) :
    ∀ rs rs' : List (String × List Bus),
      hold_in_routes bid k rs = some (rs', false) → rs' = rs := by
  intro rs
  induction rs with
  | nil => intro rs' h; simp [hold_in_routes] at h
  | cons p rest ih =>
      obtain ⟨key, bs⟩ := p
      intro rs' h
      simp only [hold_in_routes] at h
      rcases hbs : hold_in_buses bid k bs with _ | ⟨bs', ok₁⟩
      · rw [hbs] at h
        rcases h' : hold_in_routes bid k rest with _ | ⟨rest', ok₂⟩
        · rw [h'] at h
          simp at h
        · rw [h'] at h
          simp only [Option.some.injEq] at h
          have h₂ : ok₂ = false := congrArg Prod.snd h
          subst h₂
          have h₁ : (key, bs) :: rest' = rs' := congrArg Prod.fst h
          rw [← h₁, ih rest' h']
      · rw [hbs] at h
        simp only [Option.some.injEq] at h
        have h₂ : ok₁ = false := congrArg Prod.snd h
        subst h₂
        have h₁ : (key, bs') :: rest = rs' := congrArg Prod.fst h
        rw [← h₁, hold_in_buses_false bid k bs bs' hbs]

theorem hold_in_routes_evol (bid : String) (k : Int) :
    ∀ rs rs' : List (String × List Bus), ∀ ok : Bool,
      hold_in_routes bid k rs = some (rs', ok) →
      (busesIn rs').map Bus.bus_id = (busesIn rs).map Bus.bus_id ∧
        ∀ b' ∈ busesIn rs', ∃ b ∈ busesIn rs, b'.bus_id = b.bus_id ∧
          (b'.available_seats = b.available_seats ∨
            b'.available_seats = b.available_seats.erase k) := by
  intro rs
  induction rs with
  | nil => intro rs' ok h; simp [hold_in_routes] at h
  | cons p rest ih =>
      obtain ⟨key, bs⟩ := p
      intro rs' ok h
      simp only [hold_in_routes] at h
      rcases hbs : hold_in_buses bid k bs with _ | ⟨bs', ok₁⟩
      · rw [hbs] at h
        rcases h' : hold_in_routes bid k rest with _ | ⟨rest', ok₂⟩
        · rw [h'] at h
          simp at h
        · rw [h'] at h
          simp only [Option.some.injEq, Prod.mk.injEq] at h
          obtain ⟨h₁, h₂⟩ := h
          obtain ⟨ihm, ihe⟩ := ih rest' ok₂ h'
          subst h₁
          constructor
          · simp only [busesIn, List.map_append, ihm]
          · intro b' hb'
            simp only [busesIn, List.mem_append] at hb'
            rcases hb' with hb' | hb'
            · exact ⟨b', by simp [busesIn, hb'], rfl, Or.inl rfl⟩
            · obtain ⟨b₁, hm, hi, he⟩ := ihe b' hb'
              exact ⟨b₁, by simp [busesIn, hm], hi, he⟩
      · rw [hbs] at h
        simp only [Option.some.injEq, Prod.mk.injEq] at h
        obtain ⟨h₁, h₂⟩ := h
        obtain ⟨em, ee⟩ := hold_in_buses_evol bid k bs bs' ok₁ hbs
        subst h₁
        constructor
        · simp only [busesIn, List.map_append, em]
        · intro b' hb'
          simp only [busesIn, List.mem_append] at hb'
          rcases hb' with hb' | hb'
          · obtain ⟨b₁, hm, hi, he⟩ := ee b' hb'
            exact ⟨b₁, by simp [busesIn, hm], hi, he⟩
          · exact ⟨b', by simp [busesIn, hb'], rfl, Or.inl rfl⟩

theorem hold_in_routes_gone (bid : String) (k : Int) :
    ∀ rs rs' : List (String × List Bus),
      ((busesIn rs).map Bus.bus_id).Nodup →
      (∀ b ∈ busesIn rs, b.available_seats.Nodup) →
      hold_in_routes bid k rs = some (rs', true) →
      ∀ b' ∈ busesIn rs', b'.bus_id = bid → k ∉ b'.available_seats := by
  intro rs
  induction rs with
  | nil => intro rs' _ _ h; simp [hold_in_routes] at h
  | cons p rest ih =>
      obtain ⟨key, bs⟩ := p
      intro rs' hids hnd h
      simp only [busesIn, List.map_append] at hids
      rw [List.nodup_append] at hids
      obtain ⟨hids₁, hids₂, hdisj⟩ := hids
      simp only [hold_in_routes] at h
      rcases hbs : hold_in_buses bid k bs with _ | ⟨bs', ok₁⟩
      · rw [hbs] at h
        rcases h' : hold_in_routes bid k rest with _ | ⟨rest', ok₂⟩
        · rw [h'] at h
          simp at h
        · rw [h'] at h
          simp only [Option.some.injEq, Prod.mk.injEq] at h
          obtain ⟨h₁, h₂⟩ := h
          subst h₂
          intro b' hb' hid'
          rw [← h₁] at hb'
          simp only [busesIn, List.mem_append] at hb'
          rcases hb' with hb' | hb'
          · exact absurd hid' (hold_in_buses_no_match bid k bs hbs b' hb')
          · exact ih rest' hids₂ (fun x hx => hnd x (by simp [busesIn, hx])) h' b' hb' hid'
      · rw [hbs] at h
        simp only [Option.some.injEq, Prod.mk.injEq] at h
        obtain ⟨h₁, h₂⟩ := h
        subst h₂
        intro b' hb' hid'
        rw [← h₁] at hb'
        simp only [busesIn, List.mem_append] at hb'
        rcases hb' with hb' | hb'
        · exact hold_in_buses_gone bid k bs bs' hids₁
            (fun x hx => hnd x (by simp [busesIn, hx])) hbs b' hb' hid'
        · exfalso
          obtain ⟨b₁, hm, hi⟩ := hold_in_buses_match bid k bs (bs', true) hbs
          have hin₁ : bid ∈ bs.map Bus.bus_id := by
            rw [← hi]
            exact List.mem_map_of_mem Bus.bus_id hm
          have hin₂ : bid ∈ (busesIn rest).map Bus.bus_id := by
            rw [← hid']
            exact List.mem_map_of_mem Bus.bus_id hb'
          exact hdisj hin₁ hin₂

theorem hold_in_routes_not_avail (bid : String) (k : Int) :
    ∀ rs : List (String × List Bus),
      (∃ b ∈ busesIn rs, b.bus_id = bid) →
      (∀ b ∈ busesIn rs, b.bus_id = bid → k ∉ b.available_seats) →
      hold_in_routes bid k rs = some (rs, false) := by
  intro rs
  induction rs with
  | nil => intro hex _; simp [busesIn] at hex
  | cons p rest ih =>
      obtain ⟨key, bs⟩ := p
      intro hex hgone
      simp only [hold_in_routes]
      by_cases hthis : ∃ b ∈ bs, b.bus_id = bid
      · have hbs := hold_in_buses_not_avail bid k bs hthis
          (fun x hx hi => hgone x (by simp [busesIn, hx]) hi)
        rw [hbs]
      · have hbs : hold_in_buses bid k bs = none := by
          apply hold_in_buses_eq_none
          intro x hx hi
          exact hthis ⟨x, hx, hi⟩
        rw [hbs]
        obtain ⟨b₀, hmem, hid⟩ := hex
        simp only [busesIn, List.mem_append] at hmem
        rcases hmem with hmem | hmem
        · exact absurd ⟨b₀, hmem, hid⟩ hthis
        · have h' := ih ⟨b₀, hmem, hid⟩
            (fun x hx hi => hgone x (by simp [busesIn, hx]) hi)
          rw [h']

/-! State effect of each endpoint on the routes table. -/

theorem validate_phone_routes (st : St) (raw : String) :
    (validate_phone_number st raw).2.routes = st.routes := by
  by_cases h1 : phoneShapeOK raw = false
  · simp [validate_phone_number, h1]
  · by_cases h2 : pyStrip raw ∈ ALLOWED_PHONE_NUMBERS
    · simp [validate_phone_number, h1, h2]
    · rcases h3 : ((lookupA st.sessions (pyStrip raw)).getD freshSession).attempts with _ | a
      · simp [validate_phone_number, h1, h2, h3]
      · simp [validate_phone_number, h1, h2, h3]

theorem register_customer_routes (st : St) (c : CustomerRegistration) :
    (register_customer st c).2.routes = st.routes := by
  by_cases h1 : regShapeOK c = false
  · simp [register_customer, h1]
  · rcases h2 : lookupA st.customers (pyStrip c.phone_number) with _ | cust
    · simp [register_customer, h1, h2]
    · simp [register_customer, h1, h2]

theorem search_buses_state (st : St) (r : RouteSearch) :
    (search_buses st r).2 = st := by
  by_cases h1 : routeShapeOK r = false
  · simp [search_buses, h1]
  · rcases h2 : lookupA st.sessions (pyStrip r.phone_number) with _ | sess
    · simp [search_buses, h1, h2]
    · by_cases h3 : sess.validated = false
      · simp [search_buses, h1, h2, h3]
      · rcases h4 : lookupA st.routes (r.source ++ "-" ++ r.destination) with _ | bs
        · simp [search_buses, h1, h2, h3, h4]
        · simp [search_buses, h1, h2, h3, h4]

theorem enter_passenger_routes (st : St) (d : PassengerDetails) :
    (enter_passenger st d).2.routes = st.routes := by
  by_cases h1 : passengerShapeOK d = false
  · simp [enter_passenger, h1]
  · rcases h2 : lookupA st.sessions (pyStrip d.phone_number) with _ | sess
    · simp [enter_passenger, h1, h2]
    · by_cases h3 : sess.validated = false
      · simp [enter_passenger, h1, h2, h3]
      · simp [enter_passenger, h1, h2, h3]

theorem make_payment_state (st : St) (p : Payment) (conf : Nat) :
    (make_payment st p conf).2 = st := by
  by_cases h1 : paymentShapeOK p = false
  · simp [make_payment, h1]
  · rcases h2 : lookupA st.sessions (pyStrip p.phone_number) with _ | sess
    · simp [make_payment, h1, h2]
    · by_cases h3 : sess.validated = false
      · simp [make_payment, h1, h2, h3]
      · simp [make_payment, h1, h2, h3]

theorem select_seat_state (st : St) (s : SeatSelection) :
    (select_seat st s).2 = st ∨
      ∃ rs' sessions',
        hold_in_routes s.bus_id s.seat_number st.routes = some (rs', true) ∧
        (select_seat st s).2 = { st with routes := rs', sessions := sessions' } := by
  by_cases h1 : seatShapeOK s = false
  · left
    simp [select_seat, h1]
  · rcases h2 : lookupA st.sessions (pyStrip s.phone_number) with _ | sess
    · left
      simp [select_seat, h1, h2]
    · by_cases h3 : sess.validated = false
      · left
        simp [select_seat, h1, h2, h3]
      · rcases h4 : hold_in_routes s.bus_id s.seat_number st.routes with _ | ⟨rs', ok⟩
        · left
          simp [select_seat, h1, h2, h3, h4]
        · cases ok with
          | false =>
              left
              simp [select_seat, h1, h2, h3, h4]
          | true =>
              right
              refine ⟨rs',
                updateA st.sessions (pyStrip s.phone_number)
                  ({ sess with seat := some s.seat_number, bus_id := some s.bus_id }),
                rfl, ?_⟩
              simp [select_seat, h1, h2, h3, h4]

/-! Seat-ledger evolution along every operation. -/

theorem stEvol_of_routes_eq (st st' : St) (h : st'.routes = st.routes) :
    StEvol st st' := by
  unfold StEvol busesOf
  rw [h]
  exact ⟨rfl, fun b' hb' => ⟨b', hb', rfl, Or.inl rfl⟩⟩

theorem select_seat_stEvol (st : St) (s : SeatSelection) :
    StEvol st (select_seat st s).2 := by
  rcases select_seat_state st s with h | ⟨rs', sessions', h4, h⟩
  · rw [h]
    exact stEvol_of_routes_eq st st rfl
  · rw [h]
    obtain ⟨hm, he⟩ := hold_in_routes_evol s.bus_id s.seat_number st.routes rs' true h4
    constructor
    · exact hm
    · intro b' hb'
      obtain ⟨b, hbm, hi, hav⟩ := he b' hb'
      exact ⟨b, hbm, hi, hav.imp id (fun hx => ⟨s.seat_number, hx⟩)⟩

theorem step_stEvol (st : St) (op : Op) : StEvol st (step st op) := by
  cases op with
  | vphone raw => exact stEvol_of_routes_eq st _ (validate_phone_routes st raw)
  | regc c => exact stEvol_of_routes_eq st _ (register_customer_routes st c)
  | search r => exact stEvol_of_routes_eq st _ (by rw [step, search_buses_state])
  | select s => exact select_seat_stEvol st s
  | enterp d => exact stEvol_of_routes_eq st _ (enter_passenger_routes st d)
  | payop p conf => exact stEvol_of_routes_eq st _ (by rw [step, make_payment_state])

theorem inv_of_stEvol (st st' : St) (hev : StEvol st st') (hinv : Inv st) : Inv st' := by
  obtain ⟨hm, he⟩ := hev
  obtain ⟨hids, hbs⟩ := hinv
  constructor
  · rw [hm]
    exact hids
  · intro b' hb'
    obtain ⟨b, hbm, hi, hav⟩ := he b' hb'
    obtain ⟨hnd, hbound⟩ := hbs b hbm
    constructor
    · rcases hav with hav | ⟨k, hav⟩
      · rw [hav]
        exact hnd
      · rw [hav]
        exact hnd.erase k
    · intro s hs
      rw [hi]
      apply hbound
      rcases hav with hav | ⟨k, hav⟩
      · rw [← hav]
        exact hs
      · rw [hav] at hs
        exact List.erase_subset k b.available_seats hs

theorem seatGone_of_stEvol (st st' : St) (bid : String) (k : Int)
    (hev : StEvol st st') (hg : SeatGone st bid k) : SeatGone st' bid k := by
  intro b' hb' hid
  obtain ⟨b, hbm, hi, hav⟩ := hev.2 b' hb'
  have hk : k ∉ b.available_seats := hg b hbm (hi ▸ hid)
  rcases hav with hav | ⟨k₁, hav⟩
  · rw [hav]
    exact hk
  · rw [hav]
    intro hmem
    exact hk (List.erase_subset k₁ b.available_seats hmem)

theorem seatGoneAll_of_stEvol (st st' : St) (k : Int)
    (hev : StEvol st st') (hg : SeatGoneAll st k) : SeatGoneAll st' k := by
  intro b' hb'
  obtain ⟨b, hbm, _, hav⟩ := hev.2 b' hb'
  have hk : k ∉ b.available_seats := hg b hbm
  rcases hav with hav | ⟨k₁, hav⟩
  · rw [hav]
    exact hk
  · rw [hav]
    intro hmem
    exact hk (List.erase_subset k₁ b.available_seats hmem)

theorem busExists_of_stEvol (st st' : St) (bid : String)
    (hev : StEvol st st') (hx : BusExists st bid) : BusExists st' bid := by
  unfold BusExists at hx ⊢
  rw [hev.1]
  exact hx

theorem run_cons (st : St) (op : Op) (ops : List Op) :
    run st (op :: ops) = run (step st op) ops := rfl

theorem inv_run (ops : List Op) : ∀ st : St, Inv st → Inv (run st ops) := by
  induction ops with
  | nil => intro st h; exact h
  | cons op ops ih =>
      intro st h
      rw [run_cons]
      exact ih (step st op) (inv_of_stEvol st (step st op) (step_stEvol st op) h)

theorem seatGone_run (ops : List Op) (bid : String) (k : Int) :
    ∀ st : St, SeatGone st bid k → SeatGone (run st ops) bid k := by
  induction ops with
  | nil => intro st h; exact h
  | cons op ops ih =>
      intro st h
      rw [run_cons]
      exact ih (step st op) (seatGone_of_stEvol st (step st op) bid k (step_stEvol st op) h)

theorem seatGoneAll_run (ops : List Op) (k : Int) :
    ∀ st : St, SeatGoneAll st k → SeatGoneAll (run st ops) k := by
  induction ops with
  | nil => intro st h; exact h
  | cons op ops ih =>
      intro st h
      rw [run_cons]
      exact ih (step st op) (seatGoneAll_of_stEvol st (step st op) k (step_stEvol st op) h)

theorem busExists_run (ops : List Op) (bid : String) :
    ∀ st : St, BusExists st bid → BusExists (run st ops) bid := by
  induction ops with
  | nil => intro st h; exact h
  | cons op ops ih =>
      intro st h
      rw [run_cons]
      exact ih (step st op) (busExists_of_stEvol st (step st op) bid (step_stEvol st op) h)

theorem inv_init : Inv initState := by
  unfold Inv
  decide

/-! Behaviour of the select-seat endpoint. -/

theorem bool_eq_true_of_ne_false {b : Bool} (h : ¬(b = false)) : b = true := by
  cases b
  · exact absurd rfl h
  · rfl

theorem select_seat_success_elim (st : St) (sel : SeatSelection) (b₁ : String) (k₁ : Int)
    (h : (select_seat st sel).1 = SelectResult.success b₁ k₁) :
    seatShapeOK sel = true ∧
      ∃ sess rs', lookupA st.sessions (pyStrip sel.phone_number) = some sess ∧
        sess.validated = true ∧
        hold_in_routes sel.bus_id sel.seat_number st.routes = some (rs', true) ∧
        (select_seat st sel).2 =
          { st with
              routes := rs',
              sessions := updateA st.sessions (pyStrip sel.phone_number)
                ({ sess with seat := some sel.seat_number, bus_id := some sel.bus_id }) } := by
  by_cases h1 : seatShapeOK sel = false
  · simp [select_seat, h1] at h
  · rcases h2 : lookupA st.sessions (pyStrip sel.phone_number) with _ | sess
    · simp [select_seat, h1, h2] at h
    · by_cases h3 : sess.validated = false
      · simp [select_seat, h1, h2, h3] at h
      · rcases h4 : hold_in_routes sel.bus_id sel.seat_number st.routes with _ | ⟨rs', ok⟩
        · simp [select_seat, h1, h2, h3, h4] at h
        · cases ok with
          | false => simp [select_seat, h1, h2, h3, h4] at h
          | true =>
              refine ⟨bool_eq_true_of_ne_false h1, sess, rs', rfl,
                bool_eq_true_of_ne_false h3, rfl, ?_⟩
              simp [select_seat, h1, h2, h3, h4]

theorem select_seat_conflict (st : St) (sel : SeatSelection) (sess : Session)
    (h1 : seatShapeOK sel = true)
    (h2 : lookupA st.sessions (pyStrip sel.phone_number) = some sess)
    (h3 : sess.validated = true)
    (hex : BusExists st sel.bus_id)
    (hgone : SeatGone st sel.bus_id sel.seat_number) :
    select_seat st sel = (SelectResult.seatNotAvailable, st) := by
  have hex' : ∃ b ∈ busesIn st.routes, b.bus_id = sel.bus_id := by
    obtain ⟨b, hb, hid⟩ := List.mem_map.mp hex
    exact ⟨b, hb, hid⟩
  have h4 := hold_in_routes_not_avail sel.bus_id sel.seat_number st.routes hex' hgone
  simp [select_seat, h1, h2, h3, h4]

/-- C1: once one booking's select_seat call for seat k on a bus succeeds, any
subsequent select_seat call for the same bus and seat by any session that is
validated at that point — after any further sequence of requests — fails with
the Seat-not-available conflict outcome and leaves the entire state
unchanged; nothing ever releases the seat. -/
theorem hold_exclusive
    (ops₀ ops₁ : List Op) (sel₁ sel₂ : SeatSelection)
    (h1 : (select_seat (run initState ops₀) sel₁).1 =
      SelectResult.success sel₁.bus_id sel₁.seat_number)
    (hbid : sel₂.bus_id = sel₁.bus_id)
    (hknum : sel₂.seat_number = sel₁.seat_number)
    (hph : phoneShapeOK sel₂.phone_number = true)
    (hval : validatedIn (run (select_seat (run initState ops₀) sel₁).2 ops₁)
      (pyStrip sel₂.phone_number) = true) :
    select_seat (run (select_seat (run initState ops₀) sel₁).2 ops₁) sel₂ =
      (SelectResult.seatNotAvailable,
        run (select_seat (run initState ops₀) sel₁).2 ops₁) := by
  have inv₀ : Inv (run initState ops₀) := inv_run ops₀ initState inv_init
  obtain ⟨hshape₁, sess₁, rs', h2, h3, h4, hst⟩ :=
    select_seat_success_elim (run initState ops₀) sel₁ sel₁.bus_id sel₁.seat_number h1
  have hgone₁ : SeatGone ((select_seat (run initState ops₀) sel₁).2)
      sel₁.bus_id sel₁.seat_number := by
    rw [hst]
    intro b hbmem hid
    exact hold_in_routes_gone sel₁.bus_id sel₁.seat_number (run initState ops₀).routes rs'
      inv₀.1 (fun x hx => (inv₀.2 x hx).1) h4 b hbmem hid
  have hex₀ : BusExists (run initState ops₀) sel₁.bus_id := by
    obtain ⟨b, hm, hi⟩ := hold_in_routes_match sel₁.bus_id sel₁.seat_number
      (run initState ops₀).routes (rs', true) h4
    unfold BusExists
    rw [← hi]
    exact List.mem_map_of_mem Bus.bus_id hm
  have hex₁ : BusExists ((select_seat (run initState ops₀) sel₁).2) sel₁.bus_id :=
    busExists_of_stEvol _ _ _ (select_seat_stEvol _ sel₁) hex₀
  have hgone₂ := seatGone_run ops₁ sel₁.bus_id sel₁.seat_number _ hgone₁
  have hex₂ := busExists_run ops₁ sel₁.bus_id _ hex₁
  rcases hlook : lookupA (run (select_seat (run initState ops₀) sel₁).2 ops₁).sessions
      (pyStrip sel₂.phone_number) with _ | sess₂
  · unfold validatedIn at hval
    rw [hlook] at hval
    simp at hval
  · have hv2 : sess₂.validated = true := by
      unfold validatedIn at hval
      rw [hlook] at hval
      exact hval
    have hshape₂ : seatShapeOK sel₂ = true := by
      have hpos : 0 < sel₁.seat_number := by
        simp only [seatShapeOK, Bool.and_eq_true, decide_eq_true_eq] at hshape₁
        exact hshape₁.2
      simp [seatShapeOK, hph, hknum, hpos]
    apply select_seat_conflict _ sel₂ sess₂ hshape₂ hlook hv2
    · rw [hbid]
      exact hex₂
    · rw [hbid, hknum]
      exact hgone₂

/-- C1 witness: booking for phone 9999999999 takes seat 3 on bus CB1001; a
second registered booking then requests the same seat and gets the conflict
outcome with the state unchanged. -/
theorem hold_exclusive_witness :
    (select_seat (run initState [Op.regc ⟨"9999999999", "Alice", "alice@mail.com"⟩])
        ⟨"9999999999", "CB1001", 3⟩).1 = SelectResult.success "CB1001" 3 ∧
    phoneShapeOK "8888888888" = true ∧
    validatedIn
      (run (select_seat (run initState [Op.regc ⟨"9999999999", "Alice", "alice@mail.com"⟩])
          ⟨"9999999999", "CB1001", 3⟩).2
        [Op.regc ⟨"8888888888", "Bob", "bob@mail.com"⟩])
      (pyStrip "8888888888") = true ∧
    select_seat
      (run (select_seat (run initState [Op.regc ⟨"9999999999", "Alice", "alice@mail.com"⟩])
          ⟨"9999999999", "CB1001", 3⟩).2
        [Op.regc ⟨"8888888888", "Bob", "bob@mail.com"⟩])
      ⟨"8888888888", "CB1001", 3⟩ =
      (SelectResult.seatNotAvailable,
        run (select_seat (run initState [Op.regc ⟨"9999999999", "Alice", "alice@mail.com"⟩])
            ⟨"9999999999", "CB1001", 3⟩).2
          [Op.regc ⟨"8888888888", "Bob", "bob@mail.com"⟩]) :=
  ⟨by decide, by decide, by decide,
    hold_exclusive [Op.regc ⟨"9999999999", "Alice", "alice@mail.com"⟩]
      [Op.regc ⟨"8888888888", "Bob", "bob@mail.com"⟩]
      ⟨"9999999999", "CB1001", 3⟩ ⟨"8888888888", "CB1001", 3⟩
      (by decide) rfl rfl (by decide) (by decide)⟩

/-- C4: in every reachable state, each bus's available-seat list has no
duplicates, all its elements lie in the range 1..capacity, it is disjoint
from the held set, and together with the held set it covers the whole range;
every operation preserves this. -/
theorem seats_partition (ops : List Op) :
    ∀ b ∈ busesOf (run initState ops),
      b.available_seats.Nodup ∧
      (∀ s ∈ b.available_seats, 1 ≤ s ∧ s ≤ (capacity b.bus_id : Int)) ∧
      (∀ s ∈ heldSeats b, s ∉ b.available_seats) ∧
      (∀ s : Int, 1 ≤ s → s ≤ (capacity b.bus_id : Int) →
        s ∈ b.available_seats ∨ s ∈ heldSeats b) := by
  intro b hb
  have hinv := inv_run ops initState inv_init
  obtain ⟨hnd, hbound⟩ := hinv.2 b hb
  refine ⟨hnd, hbound, ?_, ?_⟩
  · intro s hs
    have hf := List.mem_filter.mp hs
    simpa using hf.2
  · intro s h1 h2
    by_cases hmem : s ∈ b.available_seats
    · exact Or.inl hmem
    · right
      apply List.mem_filter.mpr
      constructor
      · exact (mem_seatList (capacity b.bus_id) s).mpr ⟨h1, h2⟩
      · simpa using hmem

/-- C4 witness: the partition property evaluated on the initial CB1001 bus at
seat 3. -/
theorem seats_partition_witness :
    (⟨"CB1001", "09:00 AM", [1, 2, 3, 4, 5, 6, 7, 8, 9, 10]⟩ : Bus) ∈
        busesOf (run initState []) ∧
      ((3 : Int) ∈ ([1, 2, 3, 4, 5, 6, 7, 8, 9, 10] : List Int) ∨
        (3 : Int) ∈ heldSeats ⟨"CB1001", "09:00 AM", [1, 2, 3, 4, 5, 6, 7, 8, 9, 10]⟩) :=
  ⟨by decide,
    (seats_partition [] ⟨"CB1001", "09:00 AM", [1, 2, 3, 4, 5, 6, 7, 8, 9, 10]⟩
      (by decide)).2.2.2 3 (by decide) (by decide)⟩

/-- C10: when a session that already holds a seat succeeds in selecting a
different seat, the session's recorded seat and bus are overwritten, but the
previously held seat is not returned to any bus's available list, and stays
unavailable after any further sequence of operations. -/
theorem reselect_leaks_previous_seat
    (st : St) (sel : SeatSelection) (sess : Session) (k₁ : Int) (b₁ : String)
    (hs : lookupA st.sessions (pyStrip sel.phone_number) = some sess)
    (hseat : sess.seat = some k₁)
    (hbus : sess.bus_id = some b₁)
    (hgone : SeatGone st b₁ k₁)
    (hne : sel.seat_number ≠ k₁)
    (hsucc : (select_seat st sel).1 = SelectResult.success sel.bus_id sel.seat_number) :
    lookupA (select_seat st sel).2.sessions (pyStrip sel.phone_number) =
      some { sess with seat := some sel.seat_number, bus_id := some sel.bus_id } ∧
    SeatGone (select_seat st sel).2 b₁ k₁ ∧
    ∀ ops : List Op, SeatGone (run (select_seat st sel).2 ops) b₁ k₁ := by
  obtain ⟨hshape, sess', rs', h2, h3, h4, hst⟩ :=
    select_seat_success_elim st sel sel.bus_id sel.seat_number hsucc
  have hsess : sess = sess' := by
    have h := hs.symm.trans h2
    exact Option.some.inj h
  subst hsess
  have hall : SeatGone (select_seat st sel).2 b₁ k₁ :=
    seatGone_of_stEvol st _ b₁ k₁ (select_seat_stEvol st sel) hgone
  refine ⟨?_, hall, fun ops => seatGone_run ops b₁ k₁ _ hall⟩
  rw [hst]
  exact lookupA_updateA_self st.sessions (pyStrip sel.phone_number) _

/-- C10 witness: the booking holding seat 3 on CB1001 successfully selects
seat 5; its session records seat 5, and seat 3 stays out of every
available-seat list. -/
theorem reselect_leaks_previous_seat_witness :
    lookupA
      (run initState [Op.regc ⟨"9999999999", "Alice", "alice@mail.com"⟩,
        Op.select ⟨"9999999999", "CB1001", 3⟩]).sessions
      (pyStrip "9999999999") =
        some ⟨none, true, some 3, some "CB1001", none, false⟩ ∧
    (5 : Int) ≠ (3 : Int) ∧
    (select_seat
      (run initState [Op.regc ⟨"9999999999", "Alice", "alice@mail.com"⟩,
        Op.select ⟨"9999999999", "CB1001", 3⟩])
      ⟨"9999999999", "CB1001", 5⟩).1 = SelectResult.success "CB1001" 5 ∧
    lookupA
      (select_seat
        (run initState [Op.regc ⟨"9999999999", "Alice", "alice@mail.com"⟩,
          Op.select ⟨"9999999999", "CB1001", 3⟩])
        ⟨"9999999999", "CB1001", 5⟩).2.sessions (pyStrip "9999999999") =
      some ⟨none, true, some 5, some "CB1001", none, false⟩ :=
  ⟨by decide, by decide, by decide,
    (reselect_leaks_previous_seat
      (run initState [Op.regc ⟨"9999999999", "Alice", "alice@mail.com"⟩,
        Op.select ⟨"9999999999", "CB1001", 3⟩])
      ⟨"9999999999", "CB1001", 5⟩
      ⟨none, true, some 3, some "CB1001", none, false⟩ 3 "CB1001"
      (by decide) rfl rfl (by unfold SeatGone; decide) (by decide) (by decide)).1⟩

/-- C2 counterexample: a freshly registered session has never chosen a bus,
held a seat or entered a passenger, yet make_payment succeeds and returns a
CONFIRMED ticket with null passenger, bus and seat — it does not fail with
any InvalidState error. -/
theorem pay_without_lifecycle_cex :
    (make_payment (register_customer initState ⟨"9999999999", "Alice", "alice@mail.com"⟩).2
      ⟨"9999999999", "1234123412341234", "12/26", "123", 250⟩ 123456).1 =
      PayResult.ok 250 123456 "CONFIRMED" none none none := by decide

/-- C2 amended: make_payment performs no lifecycle check at all — for every
state and every shape-valid payment whose session is validated, it succeeds
with ticket_status CONFIRMED, echoing whatever passenger, bus and seat the
session happens to record (none when absent), and leaves the state
unchanged. -/
theorem pay_only_checks_validated
    (st : St) (p : Payment) (conf : Nat) (sess : Session)
    (hshape : paymentShapeOK p = true)
    (hs : lookupA st.sessions (pyStrip p.phone_number) = some sess)
    (hv : sess.validated = true) :
    make_payment st p conf =
      (PayResult.ok p.amount conf "CONFIRMED" sess.passenger sess.bus_id sess.seat, st) := by
  simp [make_payment, hshape, hs, hv]

/-- C2 amended witness: the registered session with no seat and no passenger
pays and receives CONFIRMED with null fields. -/
theorem pay_only_checks_validated_witness :
    paymentShapeOK ⟨"9999999999", "1234123412341234", "12/26", "123", 250⟩ = true ∧
    lookupA (register_customer initState ⟨"9999999999", "Alice", "alice@mail.com"⟩).2.sessions
      (pyStrip "9999999999") = some ⟨none, true, none, none, none, false⟩ ∧
    make_payment (register_customer initState ⟨"9999999999", "Alice", "alice@mail.com"⟩).2
      ⟨"9999999999", "1234123412341234", "12/26", "123", 250⟩ 654321 =
      (PayResult.ok 250 654321 "CONFIRMED" none none none,
        (register_customer initState ⟨"9999999999", "Alice", "alice@mail.com"⟩).2) :=
  ⟨by decide, by decide,
    pay_only_checks_validated
      (register_customer initState ⟨"9999999999", "Alice", "alice@mail.com"⟩).2
      ⟨"9999999999", "1234123412341234", "12/26", "123", 250⟩ 654321
      ⟨none, true, none, none, none, false⟩ (by decide) (by decide) rfl⟩

/-- C3: a pay request whose card number has 15 characters is rejected by the
Payment model's validation with no state change, while a 16-character card
with a 3-character CVV and amount 250 on a validated session succeeds with
ticket status CONFIRMED and a nonzero confirmation number. -/
theorem pay_validation_and_confirmation
    (st : St) (p q : Payment) (conf : Nat) (sess : Session)
    (hq : q.card_number.length = 15)
    (hph : phoneShapeOK p.phone_number = true)
    (hcard : p.card_number.length = 16)
    (hcvv : p.cvv.length = 3)
    (hamt : p.amount = 250)
    (hs : lookupA st.sessions (pyStrip p.phone_number) = some sess)
    (hv : sess.validated = true)
    (hconf : 100000 ≤ conf) :
    (make_payment st q conf).1 = PayResult.validationError ∧
    (make_payment st q conf).2 = st ∧
    (make_payment st p conf).1 =
      PayResult.ok 250 conf "CONFIRMED" sess.passenger sess.bus_id sess.seat ∧
    conf ≠ 0 := by
  have hqshape : paymentShapeOK q = false := by
    simp [paymentShapeOK, hq]
  have hpshape : paymentShapeOK p = true := by
    simp [paymentShapeOK, hph, hcard, hcvv, hamt]
  refine ⟨?_, ?_, ?_, by omega⟩
  · simp [make_payment, hqshape]
  · simp [make_payment, hqshape]
  · simp [make_payment, hpshape, hs, hv, hamt]

/-- C3 witness: the 15-character card is rejected and the valid card pays
250 and gets confirmation number 123456 on a registered session. -/
theorem pay_validation_and_confirmation_witness :
    ("123412341234123".length = 15) ∧
    (make_payment (register_customer initState ⟨"9999999999", "Alice", "alice@mail.com"⟩).2
      ⟨"9999999999", "123412341234123", "12/26", "123", 250⟩ 123456).1 =
      PayResult.validationError ∧
    (make_payment (register_customer initState ⟨"9999999999", "Alice", "alice@mail.com"⟩).2
      ⟨"9999999999", "1234123412341234", "12/26", "123", 250⟩ 123456).1 =
      PayResult.ok 250 123456 "CONFIRMED" none none none ∧
    (123456 : Nat) ≠ 0 :=
  ⟨by decide,
    (pay_validation_and_confirmation
      (register_customer initState ⟨"9999999999", "Alice", "alice@mail.com"⟩).2
      ⟨"9999999999", "1234123412341234", "12/26", "123", 250⟩
      ⟨"9999999999", "123412341234123", "12/26", "123", 250⟩ 123456
      ⟨none, true, none, none, none, false⟩
      (by decide) (by decide) (by decide) (by decide) rfl (by decide) rfl
      (by decide)).1,
    (pay_validation_and_confirmation
      (register_customer initState ⟨"9999999999", "Alice", "alice@mail.com"⟩).2
      ⟨"9999999999", "1234123412341234", "12/26", "123", 250⟩
      ⟨"9999999999", "123412341234123", "12/26", "123", 250⟩ 123456
      ⟨none, true, none, none, none, false⟩
      (by decide) (by decide) (by decide) (by decide) rfl (by decide) rfl
      (by decide)).2.2.1,
    (pay_validation_and_confirmation
      (register_customer initState ⟨"9999999999", "Alice", "alice@mail.com"⟩).2
      ⟨"9999999999", "1234123412341234", "12/26", "123", 250⟩
      ⟨"9999999999", "123412341234123", "12/26", "123", 250⟩ 123456
      ⟨none, true, none, none, none, false⟩
      (by decide) (by decide) (by decide) (by decide) rfl (by decide) rfl
      (by decide)).2.2.2⟩

/-- C5 counterexample: on bus CB1002 (capacity 5) a validated session asks
for seat 6 — out of range — and receives exactly the same Seat-not-available
outcome that a conflict on an already-held seat produces; there is no
distinct OutOfRange failure kind in the code. -/
theorem out_of_range_not_distinct_cex :
    (select_seat (validate_phone_number initState "7358174456").2
      ⟨"7358174456", "CB1002", 6⟩).1 = SelectResult.seatNotAvailable ∧
    (select_seat (validate_phone_number initState "7358174456").2
      ⟨"7358174456", "CB1002", 6⟩).2 = (validate_phone_number initState "7358174456").2 ∧
    (select_seat
      (select_seat (validate_phone_number initState "7358174456").2
        ⟨"7358174456", "CB1001", 3⟩).2
      ⟨"7358174456", "CB1001", 3⟩).1 = SelectResult.seatNotAvailable :=
  ⟨by decide, by decide, by decide⟩

/-- C5 amended: for every reachable state, an existing bus and a validated
session, a select_seat call whose seat number exceeds the bus capacity fails
with the same Seat-not-available outcome as an already-held seat (only
seat numbers below 1 are rejected separately, by request validation), and
leaves the state unchanged. -/
theorem out_of_range_same_failure (ops : List Op) (sel : SeatSelection) (sess : Session)
    (hph : phoneShapeOK sel.phone_number = true)
    (hpos : 0 < sel.seat_number)
    (hcap : (capacity sel.bus_id : Int) < sel.seat_number)
    (hs : lookupA (run initState ops).sessions (pyStrip sel.phone_number) = some sess)
    (hv : sess.validated = true)
    (hex : BusExists (run initState ops) sel.bus_id) :
    select_seat (run initState ops) sel =
      (SelectResult.seatNotAvailable, run initState ops) := by
  have hinv := inv_run ops initState inv_init
  have hgone : SeatGone (run initState ops) sel.bus_id sel.seat_number := by
    intro b hb hid hmem
    have hbb := (hinv.2 b hb).2 sel.seat_number hmem
    rw [hid] at hbb
    omega
  have hshape : seatShapeOK sel = true := by
    simp [seatShapeOK, hph, hpos]
  exact select_seat_conflict _ sel sess hshape hs hv hex hgone

/-- C5 amended witness: seat 6 on CB1002 (capacity 5) for the validated
allow-listed phone yields Seat-not-available with no state change. -/
theorem out_of_range_same_failure_witness :
    (capacity "CB1002" : Int) < 6 ∧
    lookupA (run initState [Op.vphone "7358174456"]).sessions (pyStrip "7358174456") =
      some ⟨some 0, true, none, none, none, false⟩ ∧
    BusExists (run initState [Op.vphone "7358174456"]) "CB1002" ∧
    select_seat (run initState [Op.vphone "7358174456"]) ⟨"7358174456", "CB1002", 6⟩ =
      (SelectResult.seatNotAvailable, run initState [Op.vphone "7358174456"]) :=
  ⟨by decide, by decide, by unfold BusExists; decide,
    out_of_range_same_failure [Op.vphone "7358174456"] ⟨"7358174456", "CB1002", 6⟩
      ⟨some 0, true, none, none, none, false⟩
      (by decide) (by decide) (by decide) (by decide) rfl
      (by unfold BusExists; decide)⟩

/-- C6 counterexample: a 10-character non-numeric phone string registers
successfully and a 16-character non-digit card number is accepted by
make_payment — neither is rejected with a validation error. -/
theorem shape_only_validation_cex :
    (register_customer initState ⟨"abcdefghij", "Eve", "eve@mail.com"⟩).1 =
      RegResult.registered ⟨"Eve", "eve@mail.com"⟩ ∧
    (make_payment (register_customer initState ⟨"abcdefghij", "Eve", "eve@mail.com"⟩).2
      ⟨"abcdefghij", "XXXXXXXXXXXXXXXX", "12/26", "999", 10⟩ 123456).1 =
      PayResult.ok 10 123456 "CONFIRMED" none none none :=
  ⟨by decide, by decide⟩

/-- C6 amended: request validation is shape-only — each endpoint rejects with
a validation error exactly those requests that fail the length and
positivity gates (phone 10 characters after stripping, card 16 characters,
CVV 3 characters, age, amount and seat number positive); digit content is
never checked, and a seat number beyond capacity is not a validation error. -/
theorem validation_shape_characterization :
    (∀ st : St, ∀ p : Payment, ∀ conf : Nat,
      ((make_payment st p conf).1 = PayResult.validationError ↔
        paymentShapeOK p = false)) ∧
    (∀ st : St, ∀ s : SeatSelection,
      ((select_seat st s).1 = SelectResult.validationError ↔
        seatShapeOK s = false)) ∧
    (∀ st : St, ∀ d : PassengerDetails,
      ((enter_passenger st d).1 = PassResult.validationError ↔
        passengerShapeOK d = false)) ∧
    (∀ st : St, ∀ r : RouteSearch,
      ((search_buses st r).1 = SearchResult.validationError ↔
        routeShapeOK r = false)) ∧
    (∀ st : St, ∀ c : CustomerRegistration,
      ((register_customer st c).1 = RegResult.validationError ↔
        regShapeOK c = false)) := by
  refine ⟨?_, ?_, ?_, ?_, ?_⟩
  · intro st p conf
    by_cases h1 : paymentShapeOK p = false
    · simp [make_payment, h1]
    · rcases h2 : lookupA st.sessions (pyStrip p.phone_number) with _ | sess
      · simp [make_payment, h1, h2]
      · by_cases h3 : sess.validated = false <;> simp [make_payment, h1, h2, h3]
  · intro st s
    by_cases h1 : seatShapeOK s = false
    · simp [select_seat, h1]
    · rcases h2 : lookupA st.sessions (pyStrip s.phone_number) with _ | sess
      · simp [select_seat, h1, h2]
      · by_cases h3 : sess.validated = false
        · simp [select_seat, h1, h2, h3]
        · rcases h4 : hold_in_routes s.bus_id s.seat_number st.routes with _ | ⟨rs', ok⟩
          · simp [select_seat, h1, h2, h3, h4]
          · cases ok with
            | false => simp [select_seat, h1, h2, h3, h4]
            | true => simp [select_seat, h1, h2, h3, h4]
  · intro st d
    by_cases h1 : passengerShapeOK d = false
    · simp [enter_passenger, h1]
    · rcases h2 : lookupA st.sessions (pyStrip d.phone_number) with _ | sess
      · simp [enter_passenger, h1, h2]
      · by_cases h3 : sess.validated = false <;> simp [enter_passenger, h1, h2, h3]
  · intro st r
    by_cases h1 : routeShapeOK r = false
    · simp [search_buses, h1]
    · rcases h2 : lookupA st.sessions (pyStrip r.phone_number) with _ | sess
      · simp [search_buses, h1, h2]
      · by_cases h3 : sess.validated = false
        · simp [search_buses, h1, h2, h3]
        · rcases h4 : lookupA st.routes (r.source ++ "-" ++ r.destination) with _ | bs <;>
            simp [search_buses, h1, h2, h3, h4]
  · intro st c
    by_cases h1 : regShapeOK c = false
    · simp [register_customer, h1]
    · rcases h2 : lookupA st.customers (pyStrip c.phone_number) with _ | cust <;>
        simp [register_customer, h1, h2]

/-- C6 amended witness: the shape characterization evaluated at a payment
with an 11-character phone number, which is a validation error. -/
theorem validation_shape_characterization_witness :
    (make_payment initState ⟨"12345678901", "1234123412341234", "12/26", "123", 250⟩ 1).1 =
        PayResult.validationError ↔
      paymentShapeOK ⟨"12345678901", "1234123412341234", "12/26", "123", 250⟩ = false :=
  validation_shape_characterization.1 initState
    ⟨"12345678901", "1234123412341234", "12/26", "123", 250⟩ 1

/-- C7: for each of the four stateful operations, a shape-valid request whose
phone has no session or an unvalidated session fails with the structured
Unauthenticated outcome (the 403 HTTPException of the source) and leaves the
whole state unchanged. -/
theorem unauthenticated_gate
    (st : St) (r : RouteSearch) (s : SeatSelection) (d : PassengerDetails)
    (p : Payment) (conf : Nat)
    (hr1 : routeShapeOK r = true)
    (hr2 : validatedIn st (pyStrip r.phone_number) = false)
    (hs1 : seatShapeOK s = true)
    (hs2 : validatedIn st (pyStrip s.phone_number) = false)
    (hd1 : passengerShapeOK d = true)
    (hd2 : validatedIn st (pyStrip d.phone_number) = false)
    (hp1 : paymentShapeOK p = true)
    (hp2 : validatedIn st (pyStrip p.phone_number) = false) :
    search_buses st r = (SearchResult.unauthenticated, st) ∧
    select_seat st s = (SelectResult.unauthenticated, st) ∧
    enter_passenger st d = (PassResult.unauthenticated, st) ∧
    make_payment st p conf = (PayResult.unauthenticated, st) := by
  refine ⟨?_, ?_, ?_, ?_⟩
  · rcases hl : lookupA st.sessions (pyStrip r.phone_number) with _ | sess
    · simp [search_buses, hr1, hl]
    · have hv : sess.validated = false := by
        unfold validatedIn at hr2
        rw [hl] at hr2
        exact hr2
      simp [search_buses, hr1, hl, hv]
  · rcases hl : lookupA st.sessions (pyStrip s.phone_number) with _ | sess
    · simp [select_seat, hs1, hl]
    · have hv : sess.validated = false := by
        unfold validatedIn at hs2
        rw [hl] at hs2
        exact hs2
      simp [select_seat, hs1, hl, hv]
  · rcases hl : lookupA st.sessions (pyStrip d.phone_number) with _ | sess
    · simp [enter_passenger, hd1, hl]
    · have hv : sess.validated = false := by
        unfold validatedIn at hd2
        rw [hl] at hd2
        exact hd2
      simp [enter_passenger, hd1, hl, hv]
  · rcases hl : lookupA st.sessions (pyStrip p.phone_number) with _ | sess
    · simp [make_payment, hp1, hl]
    · have hv : sess.validated = false := by
        unfold validatedIn at hp2
        rw [hl] at hp2
        exact hp2
      simp [make_payment, hp1, hl, hv]

/-- C7 witness: for a phone with no session at all, all four stateful
operations answer Unauthenticated and leave the initial state unchanged. -/
theorem unauthenticated_gate_witness :
    validatedIn initState (pyStrip "1234567890") = false ∧
    search_buses initState ⟨"1234567890", "Bangalore", "Chennai"⟩ =
      (SearchResult.unauthenticated, initState) ∧
    select_seat initState ⟨"1234567890", "CB1001", 3⟩ =
      (SelectResult.unauthenticated, initState) ∧
    enter_passenger initState ⟨"1234567890", "Mallory", 30, "F", "m@mail.com"⟩ =
      (PassResult.unauthenticated, initState) ∧
    make_payment initState ⟨"1234567890", "1234123412341234", "12/26", "123", 250⟩ 123456 =
      (PayResult.unauthenticated, initState) := by
  have h := unauthenticated_gate initState
    ⟨"1234567890", "Bangalore", "Chennai"⟩
    ⟨"1234567890", "CB1001", 3⟩
    ⟨"1234567890", "Mallory", 30, "F", "m@mail.com"⟩
    ⟨"1234567890", "1234123412341234", "12/26", "123", 250⟩ 123456
    (by decide) (by decide) (by decide) (by decide)
    (by decide) (by decide) (by decide) (by decide)
  exact ⟨by decide, h.1, h.2.1, h.2.2.1, h.2.2.2⟩

/-- C9: registering a 10-character phone that is not yet a known customer —
even one never on the ALLOWED_PHONE_NUMBERS allow-list — immediately writes
a validated session, so no subsequent shape-valid stateful operation for
that phone is rejected as Unauthenticated, and make_payment outright
succeeds with CONFIRMED; registering an already-known phone answers
Customer-already-exists and changes nothing. -/
theorem register_auto_validates
    (st : St) (c : CustomerRegistration)
    (hph : phoneShapeOK c.phone_number = true)
    (hallow : pyStrip c.phone_number ∉ ALLOWED_PHONE_NUMBERS) :
    (lookupA st.customers (pyStrip c.phone_number) = none →
      (register_customer st c).1 = RegResult.registered ⟨c.name, c.email⟩ ∧
      lookupA (register_customer st c).2.sessions (pyStrip c.phone_number) =
        some ⟨none, true, none, none, none, false⟩ ∧
      (∀ r : RouteSearch, pyStrip r.phone_number = pyStrip c.phone_number →
        routeShapeOK r = true →
        (search_buses (register_customer st c).2 r).1 ≠ SearchResult.unauthenticated) ∧
      (∀ s : SeatSelection, pyStrip s.phone_number = pyStrip c.phone_number →
        seatShapeOK s = true →
        (select_seat (register_customer st c).2 s).1 ≠ SelectResult.unauthenticated) ∧
      (∀ d : PassengerDetails, pyStrip d.phone_number = pyStrip c.phone_number →
        passengerShapeOK d = true →
        (enter_passenger (register_customer st c).2 d).1 ≠ PassResult.unauthenticated) ∧
      (∀ p : Payment, ∀ conf : Nat, pyStrip p.phone_number = pyStrip c.phone_number →
        paymentShapeOK p = true →
        (make_payment (register_customer st c).2 p conf).1 =
          PayResult.ok p.amount conf "CONFIRMED" none none none)) ∧
    (∀ cust : Customer, lookupA st.customers (pyStrip c.phone_number) = some cust →
      register_customer st c = (RegResult.alreadyExists, st)) := by
  have hsh : regShapeOK c = true := hph
  constructor
  · intro hnew
    have hreg : register_customer st c =
        (RegResult.registered ⟨c.name, c.email⟩,
          { st with
              customers := updateA st.customers (pyStrip c.phone_number) ⟨c.name, c.email⟩,
              sessions := updateA st.sessions (pyStrip c.phone_number)
                ⟨none, true, none, none, none, false⟩ }) := by
      simp [register_customer, hsh, hnew]
    have hfresh : lookupA (register_customer st c).2.sessions (pyStrip c.phone_number) =
        some ⟨none, true, none, none, none, false⟩ := by
      rw [hreg]
      exact lookupA_updateA_self st.sessions (pyStrip c.phone_number) _
    refine ⟨by rw [hreg], hfresh, ?_, ?_, ?_, ?_⟩
    · intro r hreq hshr
      have hl : lookupA (register_customer st c).2.sessions (pyStrip r.phone_number) =
          some ⟨none, true, none, none, none, false⟩ := by
        rw [hreq]
        exact hfresh
      rcases h4 : lookupA (register_customer st c).2.routes
          (r.source ++ "-" ++ r.destination) with _ | bs <;>
        simp [search_buses, hshr, hl, h4]
    · intro s hreq hshs
      have hl : lookupA (register_customer st c).2.sessions (pyStrip s.phone_number) =
          some ⟨none, true, none, none, none, false⟩ := by
        rw [hreq]
        exact hfresh
      rcases h4 : hold_in_routes s.bus_id s.seat_number
          (register_customer st c).2.routes with _ | ⟨rs', ok⟩
      · simp [select_seat, hshs, hl, h4]
      · cases ok with
        | false => simp [select_seat, hshs, hl, h4]
        | true => simp [select_seat, hshs, hl, h4]
    · intro d hreq hshd
      have hl : lookupA (register_customer st c).2.sessions (pyStrip d.phone_number) =
          some ⟨none, true, none, none, none, false⟩ := by
        rw [hreq]
        exact hfresh
      simp [enter_passenger, hshd, hl]
    · intro p conf hreq hshp
      have hl : lookupA (register_customer st c).2.sessions (pyStrip p.phone_number) =
          some ⟨none, true, none, none, none, false⟩ := by
        rw [hreq]
        exact hfresh
      simp [make_payment, hshp, hl]
  · intro cust hsome
    simp [register_customer, hsh, hsome]

/-- C9 witness: phone 9999999999 is not allow-listed and not a known
customer; registering it succeeds, its session is validated, and it can pay
straight away; re-registering it answers Customer-already-exists with the
state unchanged. -/
theorem register_auto_validates_witness :
    phoneShapeOK "9999999999" = true ∧
    pyStrip "9999999999" ∉ ALLOWED_PHONE_NUMBERS ∧
    lookupA initState.customers (pyStrip "9999999999") = none ∧
    (register_customer initState ⟨"9999999999", "Alice", "alice@mail.com"⟩).1 =
      RegResult.registered ⟨"Alice", "alice@mail.com"⟩ ∧
    lookupA (register_customer initState ⟨"9999999999", "Alice", "alice@mail.com"⟩).2.sessions
      (pyStrip "9999999999") = some ⟨none, true, none, none, none, false⟩ ∧
    (make_payment (register_customer initState ⟨"9999999999", "Alice", "alice@mail.com"⟩).2
      ⟨"9999999999", "1234123412341234", "12/26", "123", 250⟩ 123456).1 =
      PayResult.ok 250 123456 "CONFIRMED" none none none ∧
    register_customer
      (register_customer initState ⟨"9999999999", "Alice", "alice@mail.com"⟩).2
      ⟨"9999999999", "Alice", "alice@mail.com"⟩ =
      (RegResult.alreadyExists,
        (register_customer initState ⟨"9999999999", "Alice", "alice@mail.com"⟩).2) := by
  have h := register_auto_validates initState
    ⟨"9999999999", "Alice", "alice@mail.com"⟩ (by decide) (by decide)
  have h₂ := register_auto_validates
    (register_customer initState ⟨"9999999999", "Alice", "alice@mail.com"⟩).2
    ⟨"9999999999", "Alice", "alice@mail.com"⟩ (by decide) (by decide)
  refine ⟨by decide, by decide, by decide, (h.1 (by decide)).1, (h.1 (by decide)).2.1,
    (h.1 (by decide)).2.2.2.2.2 ⟨"9999999999", "1234123412341234", "12/26", "123", 250⟩
      123456 rfl (by decide), ?_⟩
  exact h₂.2 ⟨"Alice", "alice@mail.com"⟩ (by decide)

/-! Behaviour of the spec-modelled seat release. -/

theorem release_in_buses_eq_none (bid : String) (k : Int) :
    ∀ bs : List Bus, (∀ b ∈ bs, b.bus_id ≠ bid) → release_in_buses bid k bs = none := by
  intro bs
  induction bs with
  | nil => intro _; simp [release_in_buses]
  | cons b rest ih =>
      intro h
      have hb : ¬(b.bus_id = bid) := h b (by simp)
      have h' : release_in_buses bid k rest = none := ih (fun x hx => h x (by simp [hx]))
      simp [release_in_buses, hb, h']

theorem release_in_buses_found (bid : String) (k : Int) :
    ∀ bs : List Bus, (∃ b ∈ bs, b.bus_id = bid) →
      ∃ bs', release_in_buses bid k bs = some bs' ∧
        ∃ b ∈ bs, b.bus_id = bid ∧
          ({ b with available_seats := releaseSeatList k b.available_seats } : Bus) ∈ bs' := by
  intro bs
  induction bs with
  | nil => intro hex; simp at hex
  | cons b rest ih =>
      intro hex
      by_cases hb : b.bus_id = bid
      · refine ⟨{ b with available_seats := releaseSeatList k b.available_seats } :: rest,
          ?_, b, by simp, hb, by simp⟩
        simp [release_in_buses, hb]
      · obtain ⟨b₀, hmem, hid⟩ := hex
        have hmem' : b₀ ∈ rest := by
          rcases List.mem_cons.mp hmem with rfl | h
          · exact absurd hid hb
          · exact h
        obtain ⟨rest', hrel, b₁, hm₁, hid₁, hmod⟩ := ih ⟨b₀, hmem', hid⟩
        refine ⟨b :: rest', ?_, b₁, by simp [hm₁], hid₁, by simp [hmod]⟩
        simp [release_in_buses, hb, hrel]

theorem release_in_routes_found (bid : String) (k : Int) :
    ∀ rs : List (String × List Bus), (∃ b ∈ busesIn rs, b.bus_id = bid) →
      ∃ rs', release_in_routes bid k rs = some rs' ∧
        ∃ b ∈ busesIn rs, b.bus_id = bid ∧
          ({ b with available_seats := releaseSeatList k b.available_seats } : Bus) ∈
            busesIn rs' := by
  intro rs
  induction rs with
  | nil => intro hex; simp [busesIn] at hex
  | cons p rest ih =>
      obtain ⟨key, bs⟩ := p
      intro hex
      by_cases hthis : ∃ b ∈ bs, b.bus_id = bid
      · obtain ⟨bs', hrel, b₁, hm₁, hid₁, hmod⟩ := release_in_buses_found bid k bs hthis
        refine ⟨(key, bs') :: rest, ?_, b₁, by simp [busesIn, hm₁], hid₁,
          by simp [busesIn, hmod]⟩
        simp [release_in_routes, hrel]
      · have hnone : release_in_buses bid k bs = none := by
          apply release_in_buses_eq_none
          intro x hx hi
          exact hthis ⟨x, hx, hi⟩
        obtain ⟨b₀, hmem, hid⟩ := hex
        simp only [busesIn, List.mem_append] at hmem
        rcases hmem with hmem | hmem
        · exact absurd ⟨b₀, hmem, hid⟩ hthis
        · obtain ⟨rest', hrel, b₁, hm₁, hid₁, hmod⟩ := ih ⟨b₀, hmem, hid⟩
          refine ⟨(key, bs) :: rest', ?_, b₁, by simp [busesIn, hm₁], hid₁,
            by simp [busesIn, hmod]⟩
          simp [release_in_routes, hnone, hrel]

/-- C8 (settled against the spec-modelled cancel; the source repository has
no cancel or release code): cancelling a not-yet-cancelled booking whose
session holds a seat releases that seat back into the bus's available list
exactly once — it reappears with multiplicity one — marks the session
CANCELLED, and a second cancel is rejected without touching the state, so
the seat is never freed twice. -/
theorem cancel_frees_seat_once
    (st : St) (ph : String) (sess : Session) (k : Int) (bid : String)
    (hs : lookupA st.sessions ph = some sess)
    (hnc : sess.cancelled = false)
    (hseat : sess.seat = some k)
    (hbus : sess.bus_id = some bid)
    (hex : BusExists st bid)
    (hgone : SeatGone st bid k) :
    (cancel st ph).1 = CancelResult.cancelledOK ∧
    (∃ b ∈ busesOf (cancel st ph).2, b.bus_id = bid ∧ k ∈ b.available_seats ∧
      b.available_seats.count k = 1) ∧
    lookupA (cancel st ph).2.sessions ph = some { sess with cancelled := true } ∧
    cancel (cancel st ph).2 ph = (CancelResult.alreadyCancelled, (cancel st ph).2) := by
  obtain ⟨b₀, hb₀, hid₀⟩ := List.mem_map.mp hex
  obtain ⟨rs', hrel, b₁, hb₁, hid₁, hmem'⟩ :=
    release_in_routes_found bid k st.routes ⟨b₀, hb₀, hid₀⟩
  have hrs : release_seat st bid k = { st with routes := rs' } := by
    simp [release_seat, hrel]
  have hcan : cancel st ph =
      (CancelResult.cancelledOK,
        { st with
            routes := rs',
            sessions := updateA st.sessions ph ({ sess with cancelled := true }) }) := by
    simp [cancel, hs, hnc, hbus, hseat, hrs]
  have hkgone : k ∉ b₁.available_seats := hgone b₁ hb₁ hid₁
  have hlist : releaseSeatList k b₁.available_seats = k :: b₁.available_seats := by
    simp [releaseSeatList, hkgone]
  have hlook : lookupA (cancel st ph).2.sessions ph = some { sess with cancelled := true } := by
    rw [hcan]
    exact lookupA_updateA_self st.sessions ph _
  refine ⟨by rw [hcan], ?_, hlook, ?_⟩
  · refine ⟨{ b₁ with available_seats := releaseSeatList k b₁.available_seats }, ?_, hid₁,
      ?_, ?_⟩
    · rw [hcan]
      exact hmem'
    · rw [hlist]
      exact List.mem_cons_self k b₁.available_seats
    · rw [hlist]
      rw [List.count_cons_self, List.count_eq_zero.mpr hkgone]
  · have hgen : ∀ st₂ : St, lookupA st₂.sessions ph = some ({ sess with cancelled := true }) →
        cancel st₂ ph = (CancelResult.alreadyCancelled, st₂) := by
      intro st₂ hl
      simp [cancel, hl]
    exact hgen (cancel st ph).2 hlook

/-- C8 witness: the registered booking holding seat 3 on CB1001 cancels
once successfully and a second cancel is rejected. -/
theorem cancel_frees_seat_once_witness :
    lookupA
      (run initState [Op.regc ⟨"9999999999", "Alice", "alice@mail.com"⟩,
        Op.select ⟨"9999999999", "CB1001", 3⟩]).sessions "9999999999" =
      some ⟨none, true, some 3, some "CB1001", none, false⟩ ∧
    (cancel
      (run initState [Op.regc ⟨"9999999999", "Alice", "alice@mail.com"⟩,
        Op.select ⟨"9999999999", "CB1001", 3⟩]) "9999999999").1 =
      CancelResult.cancelledOK ∧
    cancel
      (cancel
        (run initState [Op.regc ⟨"9999999999", "Alice", "alice@mail.com"⟩,
          Op.select ⟨"9999999999", "CB1001", 3⟩]) "9999999999").2 "9999999999" =
      (CancelResult.alreadyCancelled,
        (cancel
          (run initState [Op.regc ⟨"9999999999", "Alice", "alice@mail.com"⟩,
            Op.select ⟨"9999999999", "CB1001", 3⟩]) "9999999999").2) := by
  have h := cancel_frees_seat_once
    (run initState [Op.regc ⟨"9999999999", "Alice", "alice@mail.com"⟩,
      Op.select ⟨"9999999999", "CB1001", 3⟩]) "9999999999"
    ⟨none, true, some 3, some "CB1001", none, false⟩ 3 "CB1001"
    (by decide) rfl rfl rfl (by unfold BusExists; decide) (by unfold SeatGone; decide)
  exact ⟨by decide, h.1, h.2.2.2⟩

end BusTicketing
